import Mathlib

/-!
Verification of the ClusterHealthz health-evaluation engine.

This file is a shallow embedding of `server.py` (class `ClusterHealthz`).
Python values that flow through the engine (the decoded Prometheus JSON
payload, the configuration object) are modelled by `JValue`; Python
exceptions that the engine raises or handles are modelled by `PyErr`
(`sys.exit(1)` raises `SystemExit(1)`, modelled by `PyErr.systemExit 1`).
Stateful methods take the current object state (`ClusterHealthz`) and
return `Except (PyErr × ClusterHealthz) ClusterHealthz`: an `ok` result is
the state after a normal return, an `error` result is an exception that
escaped the method together with the object state at the point the
exception was raised.

External effects are passed in as explicit inputs:
  * the outcome of `open(...)`/`readlines()` is an `Option (List String)`
    (`none` models `FileNotFoundError`);
  * the outcome of `requests.get(...)` is a `FetchOutcome`;
  * the standard-library `json.loads` is a parameter
    `loads : String → Option JValue` (`none` models `json.JSONDecodeError`).
-/

/-- Decoded Python/JSON value: `None`, `bool`, number, `str`, `list`, `dict`.
Numbers are collapsed to `Int`; no claim depends on numeric precision. -/
inductive JValue where
  | null : JValue
  | bool (b : Bool) : JValue
  | num (n : Int) : JValue
  | str (s : String) : JValue
  | arr (xs : List JValue) : JValue
  | obj (fields : List (String × JValue)) : JValue

/-- Python exceptions that appear in `server.py`'s control flow. -/
inductive PyErr where
  | keyError (key : String) : PyErr
  | typeError : PyErr
  | attributeError : PyErr
  | systemExit (code : Nat) : PyErr
deriving DecidableEq

/-- Field lookup in a decoded JSON object, first match wins. -/
def JValue.lookupField (key : String) : List (String × JValue) → Option JValue
  | [] => none
  | (k, v) :: rest => if key = k then some v else JValue.lookupField key rest

/-- Embedding of Python subscripting `value[key]` with a string key:
a `dict` yields the entry or raises `KeyError`; every other value raises
`TypeError` (lists, strings, numbers, booleans and `None` cannot be
subscripted by a string). -/
def JValue.subscript : JValue → String → Except PyErr JValue
  | .obj fields, key =>
    match JValue.lookupField key fields with
    | some v => .ok v
    | none => .error (.keyError key)
  | _, _ => .error .typeError

/-- Embedding of Python `len(value)`: defined for `list`, `dict` and `str`,
raises `TypeError` otherwise. -/
def JValue.pyLen : JValue → Except PyErr Nat
  | .arr xs => .ok xs.length
  | .obj fields => .ok fields.length
  | .str s => .ok s.length
  | _ => .error .typeError

/-- Embedding of Python iteration `for x in value`: a `list` yields its
elements, a `dict` yields its keys, a `str` yields its characters as
one-character strings; other values raise `TypeError`. -/
def JValue.pyIter : JValue → Except PyErr (List JValue)
  | .arr xs => .ok xs
  | .obj fields => .ok (fields.map fun p => JValue.str p.1)
  | .str s => .ok (s.toList.map fun c => JValue.str (String.mk [c]))
  | _ => .error .typeError

/-- Embedding of Python truthiness, as used by `if prometheus_alerts_json:`
in `start` (server.py line 98): `None`, `False`, `0`, `""`, `[]` and
an empty `dict` are falsy. -/
def JValue.truthy : JValue → Bool
  | .null => false
  | .bool b => b
  | .num n => n != 0
  | .str s => !s.isEmpty
  | .arr xs => !xs.isEmpty
  | .obj fields => !fields.isEmpty

/-- Object state of the `ClusterHealthz` class (server.py lines 16-192):
`prometheus_url` and `alerts` are the attributes of those names, `_status`
is the attribute written by the `status` property setter. -/
structure ClusterHealthz where
  prometheus_url : String
  alerts : List String
  _status : String
deriving DecidableEq

/-- Embedding of the `status` property getter (server.py lines 176-183):
returns `self._status`. -/
def ClusterHealthz.status (self : ClusterHealthz) : String := self._status

/-- Embedding of the `status` property setter (server.py lines 185-192):
`self.status = value` stores `value` in `self._status`. -/
def status_set (self : ClusterHealthz) (value : String) : ClusterHealthz :=
  { self with _status := value }

/-- Embedding of Python `s.strip(chr)` specialised to `'\n'` as used in
`process_configuration` (server.py line 80): removes every leading and
trailing newline character. -/
def stripNewlines (s : String) : String :=
  String.mk (((s.toList.dropWhile fun c => c == '\n').reverse.dropWhile
    fun c => c == '\n').reverse)

/-- Embedding of the list comprehension `[x.strip chr for x in contents]`
of `process_configuration` (server.py line 80): `.strip` on a non-string
element raises `AttributeError`; elements are processed left to right. -/
def strip_all : List JValue → Except PyErr (List String)
  | [] => .ok []
  | .str s :: rest =>
    match strip_all rest with
    | .ok ys => .ok (stripNewlines s :: ys)
    | .error e => .error e
  | _ :: _ => .error .attributeError

/-- Embedding of `ClusterHealthz.process_configuration` (server.py lines
66-84): raises `TypeError` when the argument is not a list, otherwise
strips newlines from every line and replaces `self.alerts` wholesale.
The status attribute is never touched. -/
def process_configuration (self : ClusterHealthz) (config_contents : JValue) :
    Except (PyErr × ClusterHealthz) ClusterHealthz :=
  match config_contents with
  | .arr items =>
    match strip_all items with
    | .ok stripped => .ok { self with alerts := stripped }
    | .error e => .error (e, self)
  | _ => .error (.typeError, self)

/-- Embedding of `ClusterHealthz.open_configuration` (server.py lines
47-64). The input `file` is the outcome of `open(path).readlines()`:
`none` models `FileNotFoundError`, in which case the method logs and calls
`sys.exit(1)` (raising `SystemExit(1)`); `some lines` is the list of lines
read (line terminators still attached), handed to
`process_configuration`. -/
def open_configuration (self : ClusterHealthz) (file : Option (List String)) :
    Except (PyErr × ClusterHealthz) ClusterHealthz :=
  match file with
  | none => .error (.systemExit 1, self)
  | some config_contents =>
    process_configuration self (.arr (config_contents.map JValue.str))

/-- Embedding of `ClusterHealthz.signal_handler` (server.py lines 31-45):
on SIGHUP the handler logs and calls `open_configuration()` with the
default path; `file` is the outcome of reading that path. -/
def signal_handler (self : ClusterHealthz) (file : Option (List String)) :
    Except (PyErr × ClusterHealthz) ClusterHealthz :=
  open_configuration self file

/-- Embedding of `ClusterHealthz.__init__` (server.py lines 24-29): stores
the URL, runs `open_configuration()` (whose failure raises out of the
constructor, so no object is produced), then sets `self.status` to
`"unhealthy"` through the property setter. Before the first assignment the
Python attributes do not exist; the placeholder values of `self0` are
overwritten on success and unobservable on failure. -/
def init (prometheus_url : String) (file : Option (List String)) :
    Except PyErr ClusterHealthz :=
  let self0 : ClusterHealthz :=
    { prometheus_url := prometheus_url, alerts := [], _status := "" }
  match open_configuration self0 file with
  | .error e => .error e.1
  | .ok self1 => .ok (status_set self1 "unhealthy")

/-- Outcome of `requests.get(alert_path)` in `get_prometheus_alerts`
(server.py line 118): a response whose `.text` is `body`, or one of the
two exception classes the method handles. -/
inductive FetchOutcome where
  | success (body : String) : FetchOutcome
  | gaierror : FetchOutcome
  | connectionError : FetchOutcome

/-- Embedding of `ClusterHealthz.get_prometheus_alerts` (server.py lines
103-130). `alerts` starts as `None`; on success the method returns
`alerts.text`. On `socket.gaierror` the handler sets
`self.status = "unhealthy"` and — lacking a `return` — execution falls
through to `return alerts.text` with `alerts` still `None`, raising
`AttributeError`. On `requests.ConnectionError` the handler sets
`self.status = "unhealthy"` and returns `None`. -/
def get_prometheus_alerts (self : ClusterHealthz) (outcome : FetchOutcome) :
    Except (PyErr × ClusterHealthz) (Option String × ClusterHealthz) :=
  match outcome with
  | .success body => .ok (some body, self)
  | .gaierror => .error (.attributeError, status_set self "unhealthy")
  | .connectionError => .ok (none, status_set self "unhealthy")

/-- Embedding of `ClusterHealthz.json_prometheus_response` (server.py
lines 132-145): `json.loads` (the parameter `loads`) either decodes the
string or raises `json.JSONDecodeError` (`loads _ = none`), in which case
the method logs, sets `self.status = "unhealthy"` and returns `None`. -/
def json_prometheus_response (self : ClusterHealthz) (prometheus_string : String)
    (loads : String → Option JValue) : Option JValue × ClusterHealthz :=
  match loads prometheus_string with
  | some j => (some j, self)
  | none => (none, status_set self "unhealthy")

/-- Embedding of the loop `for alert in result:
alert_names.append(alert[metric_key][alertname_key])` of
`process_prometheus_alerts` (server.py lines 161-163): the first failing
subscript raises out of the loop with the object state unchanged. -/
def collect_alert_names (self : ClusterHealthz) :
    List JValue → Except (PyErr × ClusterHealthz) (List JValue)
  | [] => .ok []
  | alert :: rest =>
    match JValue.subscript alert "metric" with
    | .error e => .error (e, self)
    | .ok metric =>
      match JValue.subscript metric "alertname" with
      | .error e => .error (e, self)
      | .ok name =>
        match collect_alert_names self rest with
        | .error e => .error e
        | .ok names => .ok (name :: names)

/-- Embedding of the Python membership test `x in active_alert_names`
where `x` is a watch-list string and the list holds decoded JSON values:
`str == non-str` is `False` in Python, so only `str` elements can match. -/
def pyIn (x : String) : List JValue → Bool
  | [] => false
  | .str t :: rest => x == t || pyIn x rest
  | _ :: rest => pyIn x rest

/-- Embedding of `ClusterHealthz.process_prometheus_alerts` (server.py
lines 147-174): subscripts `query[data_key][result_key]`, takes its
length (`len`), publishes `"healthy"` when zero, otherwise collects
`alert[metric_key][alertname_key]` for every element and publishes
`"unhealthy"` exactly when `any(x in active_alert_names for x in
self.alerts)`, else `"healthy"`. Any subscript or `len` failure raises
out of the method with the state unchanged. -/
def process_prometheus_alerts (self : ClusterHealthz) (prometheus_query : JValue) :
    Except (PyErr × ClusterHealthz) ClusterHealthz :=
  match JValue.subscript prometheus_query "data" with
  | .error e => .error (e, self)
  | .ok data =>
    match JValue.subscript data "result" with
    | .error e => .error (e, self)
    | .ok result =>
      match JValue.pyLen result with
      | .error e => .error (e, self)
      | .ok n =>
        if n = 0 then .ok (status_set self "healthy")
        else
          match JValue.pyIter result with
          | .error e => .error (e, self)
          | .ok items =>
            match collect_alert_names self items with
            | .error e => .error e
            | .ok active_alert_names =>
              if self.alerts.any (fun x => pyIn x active_alert_names) then
                .ok (status_set self "unhealthy")
              else
                .ok (status_set self "healthy")

/-- Embedding of `ClusterHealthz.start` (server.py lines 86-101): fetch,
then — only when the raw body is truthy (non-`None`, non-empty) — decode,
then — only when the decoded value is truthy — evaluate. A falsy fetch
result is only logged; a falsy decode result ends the cycle. Exceptions
raised by any stage propagate to the caller. -/
def start (self : ClusterHealthz) (outcome : FetchOutcome)
    (loads : String → Option JValue) :
    Except (PyErr × ClusterHealthz) ClusterHealthz :=
  match get_prometheus_alerts self outcome with
  | .error e => .error e
  | .ok (prometheus_query, s1) =>
    match prometheus_query with
    | none => .ok s1
    | some body =>
      if body.isEmpty then .ok s1
      else
        match json_prometheus_response s1 body loads with
        | (none, s2) => .ok s2
        | (some j, s2) =>
          if j.truthy then process_prometheus_alerts s2 j else .ok s2

/-- Embedding of the Flask route handler `return_status` (server.py lines
195-204): runs one cycle via `start()` and returns `self.status` to the
caller of the health query; an exception raised by the cycle propagates
to the caller. -/
def return_status (self : ClusterHealthz) (outcome : FetchOutcome)
    (loads : String → Option JValue) :
    Except (PyErr × ClusterHealthz) (String × ClusterHealthz) :=
  match start self outcome loads with
  | .error e => .error e
  | .ok s1 => .ok (s1.status, s1)

/-- Canonical decoded feed payload carrying one firing alert per name, in
the nested shape the backend returns (as exercised by the repository's
tests): each record is an object with a `metric` object holding the
`alertname`. -/
def mkAlert (name : String) : JValue :=
  .obj [("metric", .obj [("alertname", JValue.str name)])]

/-- Canonical decoded feed payload for a whole firing-alert list. -/
def mkQuery (names : List String) : JValue :=
  .obj [("data", .obj [("result", .arr (names.map mkAlert))])]

/-- Predicate: the stored verdict is one of the two literal strings the
engine ever writes. -/
def statusOk (s : ClusterHealthz) : Bool :=
  s.status == "healthy" || s.status == "unhealthy"

/-- Lifting of `statusOk` to a method result: it must hold for the state
after a normal return and for the state at the point an exception was
raised. -/
def resultStatusOk : Except (PyErr × ClusterHealthz) ClusterHealthz → Bool
  | .ok s => statusOk s
  | .error e => statusOk e.2

/-! ### Helper lemmas -/

/-- Evaluation of the strip comprehension on a list of strings. -/
theorem strip_all_map_str (lines : List String) :
    strip_all (lines.map JValue.str) = .ok (lines.map stripNewlines) := by
  induction lines with
  | nil => rfl
  | cons l ls ih => simp [strip_all, ih]

/-- Evaluation of `process_configuration` on a list of strings. -/
theorem process_configuration_map_str (s : ClusterHealthz) (lines : List String) :
    process_configuration s (.arr (lines.map JValue.str)) =
      .ok { s with alerts := lines.map stripNewlines } := by
  simp [process_configuration, strip_all_map_str]

/-- Evaluation of the constructor on a readable configuration file. -/
theorem init_eq (url : String) (lines : List String) :
    init url (some lines) =
      .ok ⟨url, lines.map stripNewlines, "unhealthy"⟩ := by
  simp [init, open_configuration, process_configuration_map_str, status_set]

/-- Membership test against a list of string values coincides with list
membership of the underlying strings. -/
theorem pyIn_map_str_iff (x : String) (names : List String) :
    pyIn x (names.map JValue.str) = true ↔ x ∈ names := by
  induction names with
  | nil => simp [pyIn]
  | cons n ns ih => simp [pyIn, ih, List.mem_cons]

/-- Name collection on the canonical payload returns exactly the names. -/
theorem collect_mkAlert (s : ClusterHealthz) (names : List String) :
    collect_alert_names s (names.map mkAlert) =
      .ok (names.map JValue.str) := by
  induction names with
  | nil => rfl
  | cons n ns ih =>
    simp [collect_alert_names, mkAlert, JValue.subscript, JValue.lookupField, ih]

/-- Evaluation of `process_prometheus_alerts` on a payload in the nested
shape, with an arbitrary record list. -/
theorem process_wellshaped (s : ClusterHealthz) (items : List JValue) :
    process_prometheus_alerts s (.obj [("data", .obj [("result", .arr items)])]) =
      if items.length = 0 then .ok (status_set s "healthy")
      else
        match collect_alert_names s items with
        | .error e => .error e
        | .ok active_alert_names =>
          if s.alerts.any (fun x => pyIn x active_alert_names) then
            .ok (status_set s "unhealthy")
          else .ok (status_set s "healthy") := by
  simp [process_prometheus_alerts, JValue.subscript, JValue.lookupField,
    JValue.pyLen, JValue.pyIter]

/-- Evaluation of `process_prometheus_alerts` on the canonical payload. -/
theorem process_mkQuery (s : ClusterHealthz) (names : List String) :
    process_prometheus_alerts s (mkQuery names) =
      if names.isEmpty then .ok (status_set s "healthy")
      else if s.alerts.any (fun x => pyIn x (names.map JValue.str)) then
        .ok (status_set s "unhealthy")
      else .ok (status_set s "healthy") := by
  simp only [mkQuery]
  rw [process_wellshaped, collect_mkAlert]
  simp [List.isEmpty_iff, List.length_eq_zero]

/-- An exception raised by the collection loop carries the state
unchanged. -/
theorem collect_error_snd (s : ClusterHealthz) :
    ∀ (items : List JValue) (e : PyErr × ClusterHealthz),
      collect_alert_names s items = .error e → e.2 = s := by
  intro items
  induction items with
  | nil => intro e h; simp [collect_alert_names] at h
  | cons a rest ih =>
    intro e h
    simp only [collect_alert_names] at h
    cases h1 : JValue.subscript a "metric" with
    | error e1 =>
      simp only [h1] at h
      injection h with h2
      rw [← h2]
    | ok metric =>
      simp only [h1] at h
      cases h2 : JValue.subscript metric "alertname" with
      | error e2 =>
        simp only [h2] at h
        injection h with h3
        rw [← h3]
      | ok name =>
        simp only [h2] at h
        cases h3 : collect_alert_names s rest with
        | error e3 =>
          simp only [h3] at h
          injection h with h4
          rw [← h4]
          exact ih e3 h3
        | ok names =>
          simp only [h3] at h
          exact Except.noConfusion h

/-- Case analysis of one evaluation: the method either raises with the
state unchanged, or returns normally having only written `"healthy"` or
`"unhealthy"` to the status attribute. -/
theorem process_shape (s : ClusterHealthz) (q : JValue) :
    (∃ e : PyErr, process_prometheus_alerts s q = .error (e, s)) ∨
    (∃ v, (v = "healthy" ∨ v = "unhealthy") ∧
      process_prometheus_alerts s q = .ok (status_set s v)) := by
  simp only [process_prometheus_alerts]
  cases h1 : JValue.subscript q "data" with
  | error e1 => simp only [h1]; exact Or.inl ⟨e1, rfl⟩
  | ok data =>
    simp only [h1]
    cases h2 : JValue.subscript data "result" with
    | error e2 => simp only [h2]; exact Or.inl ⟨e2, rfl⟩
    | ok result =>
      simp only [h2]
      cases h3 : JValue.pyLen result with
      | error e3 => simp only [h3]; exact Or.inl ⟨e3, rfl⟩
      | ok n =>
        simp only [h3]
        by_cases hn : n = 0
        · simp only [hn, if_pos rfl]
          exact Or.inr ⟨"healthy", Or.inl rfl, rfl⟩
        · simp only [if_neg hn]
          cases h4 : JValue.pyIter result with
          | error e4 => simp only [h4]; exact Or.inl ⟨e4, rfl⟩
          | ok items =>
            simp only [h4]
            cases h5 : collect_alert_names s items with
            | error e5 =>
              simp only [h5]
              obtain ⟨p, st⟩ := e5
              have hst : st = s := collect_error_snd s items (p, st) h5
              subst hst
              exact Or.inl ⟨p, rfl⟩
            | ok active =>
              simp only [h5]
              by_cases ha : s.alerts.any (fun x => pyIn x active) = true
              · simp only [ha, if_pos rfl]
                exact Or.inr ⟨"unhealthy", Or.inr rfl, rfl⟩
              · simp only [if_neg ha]
                exact Or.inr ⟨"healthy", Or.inl rfl, rfl⟩

/-- An exception raised by one evaluation carries the state unchanged. -/
theorem process_error_snd (s : ClusterHealthz) (q : JValue)
    (e : PyErr × ClusterHealthz)
    (hp : process_prometheus_alerts s q = .error e) : e.2 = s := by
  rcases process_shape s q with ⟨e1, h1⟩ | ⟨v, _, h1⟩
  · rw [h1] at hp
    injection hp with h2
    rw [← h2]
  · rw [h1] at hp
    exact Except.noConfusion hp

/-- One evaluation preserves the two-valuedness of the status attribute. -/
theorem process_preserves (s : ClusterHealthz) (q : JValue)
    (h : statusOk s = true) :
    resultStatusOk (process_prometheus_alerts s q) = true := by
  rcases process_shape s q with ⟨e, hp⟩ | ⟨v, hv, hp⟩
  · rw [hp]; simpa [resultStatusOk] using h
  · rw [hp]; rcases hv with rfl | rfl <;> rfl

/-- Bridge between the Python `any(x in names for x in self.alerts)` test
and set-intersection of the two name sets. -/
theorem any_pyIn_iff (s : ClusterHealthz) (names : List String) :
    (s.alerts.any fun x => pyIn x (names.map JValue.str)) = true ↔
      ∃ x, x ∈ s.alerts ∧ x ∈ names := by
  simp [List.any_eq_true, pyIn_map_str_iff]

/-! ### Claims -/

/-- C1: for every firing-alert list and watch list,
`process_prometheus_alerts` publishes `healthy` when the firing list is
empty; otherwise it publishes `unhealthy` exactly when the set of firing
alert names and the set of watch-list entries intersect, and `healthy`
otherwise. The watch list itself is not modified. -/
theorem claim1_evaluate_verdict (names : List String) (s : ClusterHealthz) :
    ∃ s', process_prometheus_alerts s (mkQuery names) = .ok s' ∧
      s'.alerts = s.alerts ∧
      (s'.status = "unhealthy" ↔ names ≠ [] ∧ ∃ x, x ∈ s.alerts ∧ x ∈ names) ∧
      (s'.status = "healthy" ↔ ¬(names ≠ [] ∧ ∃ x, x ∈ s.alerts ∧ x ∈ names)) := by
  rw [process_mkQuery]
  by_cases h0 : names.isEmpty
  · have h0' : names = [] := List.isEmpty_iff.mp h0
    subst h0'
    exact ⟨status_set s "healthy", by simp, rfl, by simp [status_set, ClusterHealthz.status],
      by simp [status_set, ClusterHealthz.status]⟩
  · have h0' : names ≠ [] := by simpa [List.isEmpty_iff] using h0
    by_cases ha : (s.alerts.any fun x => pyIn x (names.map JValue.str)) = true
    · have hx : ∃ x, x ∈ s.alerts ∧ x ∈ names := (any_pyIn_iff s names).mp ha
      exact ⟨status_set s "unhealthy", by simp [h0, ha], rfl,
        by simp [status_set, ClusterHealthz.status, h0', hx],
        by simp [status_set, ClusterHealthz.status, h0', hx]⟩
    · have hx : ¬∃ x, x ∈ s.alerts ∧ x ∈ names :=
        fun hc => ha ((any_pyIn_iff s names).mpr hc)
      exact ⟨status_set s "healthy", by simp [h0, ha], rfl,
        by simp [status_set, ClusterHealthz.status, h0', hx],
        by simp [status_set, ClusterHealthz.status, h0', hx]⟩

/-- C2 (observed divergence, at the failing input): when the fetch fails
with `socket.gaierror` (name-resolution failure), the handler sets the
verdict to `unhealthy`, but the missing `return` makes execution fall
through to `return alerts.text` with `alerts = None`, so `AttributeError`
escapes the cycle and reaches the caller of the health query instead of
the published verdict. -/
theorem claim2_gaierror_raises (s : ClusterHealthz)
    (loads : String → Option JValue) :
    return_status s .gaierror loads =
      .error (.attributeError, status_set s "unhealthy") := rfl

/-- C3 counterexample: a reload (the SIGHUP handler) whose configuration
file cannot be opened raises `SystemExit(1)` out of the handler — the
process terminates instead of surviving the failed reload. -/
theorem claim3_counterexample :
    signal_handler
        ⟨"service-prometheus.monitoring:9090", ["KubernetesMasterDown"], "healthy"⟩
        none =
      .error (.systemExit 1,
        ⟨"service-prometheus.monitoring:9090", ["KubernetesMasterDown"], "healthy"⟩) := rfl

/-- C3 amended: on a reload whose configuration source cannot be opened,
the handler calls `sys.exit(1)`, raising `SystemExit(1)` — the process
terminates; the previously active watch list (`self.alerts`) and the
stored verdict are unchanged at the point the exception is raised, so
any evaluation that still happens sees the same watch list as before. -/
theorem claim3_reload_failure_exits (s : ClusterHealthz) :
    signal_handler s none = .error (.systemExit 1, s) := rfl

/-- C4 counterexample: on undecodable text the parse step does mutate the
status store: starting from verdict `"healthy"`, the verdict after the
failed parse call is `"unhealthy"`, not the value held before the call. -/
theorem claim4_counterexample :
    ((json_prometheus_response ⟨"u", ["KubernetesMasterDown"], "healthy"⟩
        "narp" fun _ => none).2).status = "unhealthy" ∧
    ((json_prometheus_response ⟨"u", ["KubernetesMasterDown"], "healthy"⟩
        "narp" fun _ => none).2).status ≠
      (⟨"u", ["KubernetesMasterDown"], "healthy"⟩ : ClusterHealthz).status :=
  ⟨rfl, by decide⟩

/-- C4 amended: on every undecodable input text (`json.loads` raises),
`json_prometheus_response` returns `None` without raising past its
boundary — it is a total function — and leaves the watch list and URL
unchanged, but sets the stored verdict to `"unhealthy"`. -/
theorem claim4_decode_failure (s : ClusterHealthz) (text : String)
    (loads : String → Option JValue) (h : loads text = none) :
    json_prometheus_response s text loads = (none, status_set s "unhealthy") := by
  simp [json_prometheus_response, h]

/-- C4 witness: the amended behaviour at the repository's own test input
`narp`. -/
theorem claim4_witness :
    (fun _ : String => (none : Option JValue)) "narp" = none ∧
    json_prometheus_response ⟨"u", ["KubernetesMasterDown"], "healthy"⟩ "narp"
        (fun _ : String => (none : Option JValue)) =
      (none, status_set ⟨"u", ["KubernetesMasterDown"], "healthy"⟩ "unhealthy") :=
  ⟨rfl, claim4_decode_failure _ _ _ rfl⟩

/-- C10: when the fetch succeeds but the raw body is empty (falsy),
`start` publishes nothing: the state — stored verdict and watch list — is
returned exactly as it was before the cycle, whatever the decoder would
have said. -/
theorem claim10_empty_body_no_publish (s : ClusterHealthz)
    (loads : String → Option JValue) :
    start s (.success "") loads = .ok s := rfl

/-- C5 counterexample: the decodable but mis-shaped payload
`obj [(status, success)]` (missing the `data` key) makes the cycle raise
an uncaught `KeyError` past the cycle boundary — it is not classified as
a decode failure. -/
theorem claim5_counterexample :
    start ⟨"u", ["KubernetesMasterDown"], "healthy"⟩ (.success "x")
        (fun _ => some (.obj [("status", .str "success")])) =
      .error (.keyError "data",
        ⟨"u", ["KubernetesMasterDown"], "healthy"⟩) := rfl

/-- C5 amended: a truthy decoded payload that deviates from the nested
shape in a way that makes alert-identifier extraction fail is not
classified as a decode failure: the underlying `KeyError`/`TypeError`
propagates uncaught past the cycle boundary, with the stored verdict and
watch list unchanged at the point of the raise — in particular the
deviation is never silently treated as an empty (healthy) result. -/
theorem claim5_shape_error_raises (s : ClusterHealthz) (body : String)
    (loads : String → Option JValue) (q : JValue) (e : PyErr × ClusterHealthz)
    (hb : body.isEmpty = false) (hl : loads body = some q)
    (ht : q.truthy = true)
    (hp : process_prometheus_alerts s q = .error e) :
    start s (.success body) loads = .error e ∧ e.2 = s := by
  constructor
  · simp [start, get_prometheus_alerts, json_prometheus_response, hb, hl, ht, hp]
  · exact process_error_snd s q e hp

/-- C5 witness: the amended behaviour at the mis-shaped payload of the
counterexample scenario. -/
theorem claim5_witness :
    ("x" : String).isEmpty = false ∧
    (fun _ : String => some (JValue.obj [("status", JValue.str "success")])) "x" =
      some (JValue.obj [("status", JValue.str "success")]) ∧
    (JValue.obj [("status", JValue.str "success")]).truthy = true ∧
    process_prometheus_alerts ⟨"u", [], "unhealthy"⟩
        (JValue.obj [("status", JValue.str "success")]) =
      .error (.keyError "data", ⟨"u", [], "unhealthy"⟩) ∧
    (start ⟨"u", [], "unhealthy"⟩ (.success "x")
        (fun _ : String => some (JValue.obj [("status", JValue.str "success")])) =
      .error (.keyError "data", ⟨"u", [], "unhealthy"⟩) ∧
      ((PyErr.keyError "data", (⟨"u", [], "unhealthy"⟩ : ClusterHealthz))).2 =
        (⟨"u", [], "unhealthy"⟩ : ClusterHealthz)) :=
  ⟨rfl, rfl, rfl, rfl, claim5_shape_error_raises _ _ _ _ _ rfl rfl rfl rfl⟩

/-- C6 counterexample: the configuration lines `KubernetesMasterDown`,
`KubernetesMasterDown`, and an empty line produce a watch list with a
duplicate entry and an empty-string entry — uniqueness is not enforced
and empty lines do contribute entries. -/
theorem claim6_counterexample :
    process_configuration ⟨"u", [], "unhealthy"⟩
        (.arr [.str "KubernetesMasterDown\n", .str "KubernetesMasterDown\n",
          .str "\n"]) =
      .ok ⟨"u", ["KubernetesMasterDown", "KubernetesMasterDown", ""],
        "unhealthy"⟩ ∧
    ¬ (["KubernetesMasterDown", "KubernetesMasterDown", ""] :
        List String).Nodup ∧
    "" ∈ (["KubernetesMasterDown", "KubernetesMasterDown", ""] :
        List String) :=
  ⟨rfl, by decide, by decide⟩

/-- C6 amended: every line of a list-of-strings configuration — trimmed
of leading and trailing newline characters — becomes one watch-list entry
in source order; empty lines become empty-string entries, and duplicates
are preserved (no uniqueness is enforced). -/
theorem claim6_configuration_lines (s : ClusterHealthz) (lines : List String) :
    process_configuration s (.arr (lines.map JValue.str)) =
      .ok { s with alerts := lines.map stripNewlines } :=
  process_configuration_map_str s lines

/-- C7: a missing configuration source fails the load with the
source-not-found failure mode (`FileNotFoundError` handled by
`sys.exit(1)`, i.e. `SystemExit(1)`), and a mapping-shaped configuration
fails `process_configuration` with the invalid-shape failure mode
(`TypeError`); both failures carry the state unchanged, so no watch list
is produced or applied. -/
theorem claim7_load_failures (s : ClusterHealthz)
    (fields : List (String × JValue)) :
    open_configuration s none = .error (.systemExit 1, s) ∧
    process_configuration s (.obj fields) = .error (.typeError, s) :=
  ⟨rfl, rfl⟩

/-- C8: immediately after a successful construction — before any
evaluation cycle has run — the verdict read through the `status` property
is `"unhealthy"` (fail-closed default). -/
theorem claim8_initial_status_unhealthy (url : String) (lines : List String) :
    ∃ s, init url (some lines) = .ok s ∧ s.status = "unhealthy" :=
  ⟨⟨url, lines.map stripNewlines, "unhealthy"⟩, init_eq url lines, rfl⟩

/-- C9: the stored verdict is two-valued. Construction establishes
`statusOk` (the attribute is one of `"healthy"`/`"unhealthy"`), and every
modelled operation — a reload through the signal handler and a full
evaluation cycle under any fetch outcome and any decode result —
preserves it, both on normal return and in the state carried at every
raised exception, so a reader of the `status` property never observes a
third value. -/
theorem claim9_status_two_valued :
    (∀ url lines s, init url (some lines) = .ok s → statusOk s = true) ∧
    (∀ (s : ClusterHealthz) (file : Option (List String)),
      statusOk s = true → resultStatusOk (signal_handler s file) = true) ∧
    (∀ (s : ClusterHealthz) (outcome : FetchOutcome)
      (loads : String → Option JValue),
      statusOk s = true → resultStatusOk (start s outcome loads) = true) := by
  refine ⟨?_, ?_, ?_⟩
  · intro url lines s h
    rw [init_eq] at h
    injection h with h2
    rw [← h2]
    rfl
  · intro s file h
    cases file with
    | none => simpa [signal_handler, open_configuration, resultStatusOk] using h
    | some lines =>
      rw [signal_handler, open_configuration, process_configuration_map_str]
      simpa [resultStatusOk, statusOk, ClusterHealthz.status] using h
  · intro s outcome loads h
    cases outcome with
    | gaierror => rfl
    | connectionError => rfl
    | success body =>
      simp only [start, get_prometheus_alerts]
      by_cases hb : body.isEmpty
      · simpa [hb, resultStatusOk] using h
      · simp only [Bool.not_eq_true] at hb
        cases hl : loads body with
        | none =>
          simp [hb, json_prometheus_response, hl, resultStatusOk, statusOk,
            status_set, ClusterHealthz.status]
        | some j =>
          by_cases ht : j.truthy
          · simpa [hb, json_prometheus_response, hl, ht] using
              process_preserves s j h
          · simpa [hb, json_prometheus_response, hl, ht, resultStatusOk] using h

/-- C9 witness: the invariant applied at concrete inputs — a concrete
construction, a concrete failed reload, and a concrete cycle whose fetch
raises. -/
theorem claim9_witness :
    (init "u" (some ["KubernetesMasterDown\n"]) =
        .ok ⟨"u", ["KubernetesMasterDown"], "unhealthy"⟩ ∧
      statusOk ⟨"u", ["KubernetesMasterDown"], "unhealthy"⟩ = true) ∧
    (statusOk ⟨"u", [], "healthy"⟩ = true ∧
      resultStatusOk (signal_handler ⟨"u", [], "healthy"⟩ none) = true) ∧
    resultStatusOk (start ⟨"u", [], "healthy"⟩ .gaierror fun _ => none) = true :=
  ⟨⟨rfl, claim9_status_two_valued.1 "u" ["KubernetesMasterDown\n"]
      ⟨"u", ["KubernetesMasterDown"], "unhealthy"⟩ rfl⟩,
   ⟨rfl, claim9_status_two_valued.2.1 ⟨"u", [], "healthy"⟩ none rfl⟩,
   claim9_status_two_valued.2.2 ⟨"u", [], "healthy"⟩ .gaierror (fun _ => none) rfl⟩
